import Mathlib

/-!
# OServers — verification of the multi-server lifecycle core

Shallow embedding of the lifecycle-orchestration core of the OServers
repository (a GUI tool running HTTP/FTP/TFTP/SSH file servers side by side).

The embedding follows the source files:

* `src/servers/mod.rs` — `ServerStatus`, `LogLevel`, `LogMessage`,
  `ServerConfig`, `ServerState` (with `add_log`, the 100-entry ring policy);
* `src/gui/app.rs` — `ServerType`, `ServerEntry` (`is_running`, slot state,
  `shutdown_tx`), `OServersApp::start_server` / `stop_server` (the per-slot
  guard/spawn/signal skeleton; the per-kind config construction from UI text
  fields is presentation-level and carries no lifecycle logic);
* `src/servers/{http,ftp,tftp,ssh}.rs` — each `start_server` async entry
  point, modelled as a function from (config, initial state, environment
  outcome) to (final state, list of status writes in order, run outcome);
  the environment outcome records which external event occurred (bind/build
  failure, serve error, shutdown signal), since the network is outside the
  program;
* `src/config.rs` — `AppConfig::load`, modelled over an abstract file read
  result and an abstract JSON parse function (`serde_json` is external).

Timestamps on log entries come from the wall clock (`chrono::Local::now()`)
and carry no program logic, so `LogMessage` is modelled without them; the
append order of the buffer, which the properties are about, is the list
order.  `tokio::sync::mpsc::channel(1)` is modelled as a bounded queue
(`Chan`): `try_send` succeeds exactly when the queue is below capacity.
-/

namespace OServers

/-- `ServerStatus` from `src/servers/mod.rs` (the Rust `Error` variant is the
spec's `Failed(reason)`). -/
inductive ServerStatus where
  | Stopped
  | Starting
  | Running
  | Stopping
  | Error (msg : String)
deriving DecidableEq, Repr

/-- `LogLevel` from `src/servers/mod.rs`. -/
inductive LogLevel where
  | Info
  | Warning
  | Error
deriving DecidableEq, Repr

/-- `LogMessage` from `src/servers/mod.rs`; the `chrono` wall-clock timestamp
is environment input with no logic attached and is not modelled. -/
structure LogMessage where
  level : LogLevel
  message : String
deriving DecidableEq, Repr

/-- `LogMessage::info`. -/
def LogMessage.info (message : String) : LogMessage :=
  ⟨LogLevel.Info, message⟩

/-- `LogMessage::error`. -/
def LogMessage.mkError (message : String) : LogMessage :=
  ⟨LogLevel.Error, message⟩

/-- `ServerConfig` from `src/servers/mod.rs`; `root_dir: PathBuf` is modelled
as a string. -/
structure ServerConfig where
  root_dir : String
  port : Nat
  auto_stop_seconds : Option Nat
deriving DecidableEq, Repr

/-- The body of `ServerState::add_log` at the list level
(`src/servers/mod.rs` lines 109–115): push the entry, then if the length
exceeds 100 remove the element at index 0 (the oldest). -/
def addLog (l : List LogMessage) (m : LogMessage) : List LogMessage :=
  let l2 := l ++ [m]
  if l2.length > 100 then l2.drop 1 else l2

/-- `ServerState` from `src/servers/mod.rs`. -/
structure ServerState where
  status : ServerStatus
  logs : List LogMessage
  config : ServerConfig
deriving DecidableEq, Repr

/-- `ServerState::new`. -/
def ServerState.new (config : ServerConfig) : ServerState :=
  ⟨ServerStatus.Stopped, [], config⟩

/-- `ServerState::add_log` from `src/servers/mod.rs`. -/
def ServerState.add_log (s : ServerState) (msg : LogMessage) : ServerState :=
  { s with logs := addLog s.logs msg }

/-- Iterated `add_log`, used to state properties of long append sequences. -/
def ServerState.addLogs (s : ServerState) (ms : List LogMessage) : ServerState :=
  ms.foldl ServerState.add_log s

/-- The last `n` elements of a list, in order. -/
def lastN (n : Nat) (l : List α) : List α :=
  l.drop (l.length - n)

-- Basic facts about `addLog` / `lastN`.

theorem addLog_length (l : List LogMessage) (m : LogMessage) :
    (addLog l m).length = if l.length + 1 > 100 then l.length else l.length + 1 := by
  simp only [addLog, List.length_append, List.length_cons, List.length_nil]
  split <;> simp_all

theorem addLog_of_lt (l : List LogMessage) (m : LogMessage) (h : l.length < 100) :
    addLog l m = l ++ [m] := by
  simp only [addLog, List.length_append, List.length_cons, List.length_nil]
  rw [if_neg (by omega)]

theorem addLog_of_full (l : List LogMessage) (m : LogMessage) (h : l.length = 100) :
    addLog l m = l.drop 1 ++ [m] := by
  simp only [addLog]
  rw [if_pos (by simp [h])]
  rw [List.drop_append_eq_append_drop]
  simp [h]

theorem lastN_of_le (l : List α) (h : l.length ≤ n) : lastN n l = l := by
  simp [lastN, Nat.sub_eq_zero_of_le h]

theorem addLog_eq_lastN (l : List LogMessage) (m : LogMessage) (h : l.length ≤ 100) :
    addLog l m = lastN 100 (l ++ [m]) := by
  rcases Nat.lt_or_ge l.length 100 with h1 | h1
  · rw [addLog_of_lt l m h1, lastN_of_le]
    simp; omega
  · have h2 : l.length = 100 := le_antisymm h h1
    rw [addLog_of_full l m h2]
    simp [lastN, h2, List.drop_append_eq_append_drop]

theorem lastN_append_lastN (n : Nat) (x y : List α) :
    lastN n (lastN n x ++ y) = lastN n (x ++ y) := by
  simp only [lastN, List.length_append, List.length_drop]
  rw [List.drop_append_eq_append_drop, List.drop_append_eq_append_drop,
    List.drop_drop]
  simp only [List.length_drop]
  congr 1 <;> congr 1 <;> omega

theorem foldl_addLog_eq_lastN (ms : List LogMessage) :
    ∀ l : List LogMessage, l.length ≤ 100 →
      ms.foldl addLog l = lastN 100 (l ++ ms) := by
  induction ms with
  | nil =>
    intro l h
    simpa using (lastN_of_le l h).symm
  | cons m ms ih =>
    intro l h
    have hlen : (addLog l m).length ≤ 100 := by
      rw [addLog_length]; split <;> omega
    calc (m :: ms).foldl addLog l = ms.foldl addLog (addLog l m) := rfl
      _ = lastN 100 (addLog l m ++ ms) := ih _ hlen
      _ = lastN 100 ((l ++ [m]) ++ ms) := by
            rw [addLog_eq_lastN l m h, lastN_append_lastN]
      _ = lastN 100 (l ++ m :: ms) := by simp

theorem lastN_append_right (n : Nat) (x y : List α) (h : n ≤ y.length) :
    lastN n (x ++ y) = lastN n y := by
  simp only [lastN, List.length_append]
  rw [List.drop_append_eq_append_drop]
  rw [List.drop_eq_nil_of_le (by omega)]
  simp only [List.nil_append]
  congr 1
  omega

theorem lastN_length_of_le (n : Nat) (l : List α) (h : n ≤ l.length) :
    (lastN n l).length = n := by
  simp [lastN]; omega

theorem ServerState.addLogs_logs (s : ServerState) (ms : List LogMessage) :
    (s.addLogs ms).logs = ms.foldl addLog s.logs ∧
    (s.addLogs ms).status = s.status ∧ (s.addLogs ms).config = s.config := by
  induction ms generalizing s with
  | nil => exact ⟨rfl, rfl, rfl⟩
  | cons m ms ih =>
    have := ih (s.add_log m)
    simpa [ServerState.addLogs, ServerState.add_log] using this

/-- `HttpConfig` from `src/servers/http.rs`. -/
structure HttpConfig where
  root_dir : String
  port : Nat
  allow_directory_listing : Bool
  auto_stop_seconds : Option Nat
deriving DecidableEq, Repr

/-- `HttpConfig::default` (`root_dir` defaults to the current working
directory, supplied here as `cwd`). -/
def HttpConfig.defaultCfg (cwd : String) : HttpConfig :=
  ⟨cwd, 7777, true, some 360⟩

/-- `FtpConfig` from `src/servers/ftp.rs`. -/
structure FtpConfig where
  root_dir : String
  port : Nat
  username : String
  password : String
  anonymous_access : Bool
  passive_mode : Bool
  passive_ports : Nat × Nat
deriving DecidableEq, Repr

/-- `FtpConfig::default`. -/
def FtpConfig.defaultCfg (cwd : String) : FtpConfig :=
  ⟨cwd, 2121, "admin", "admin", true, true, (50000, 50100)⟩

/-- `TftpConfig` from `src/servers/tftp.rs`. -/
structure TftpConfig where
  root_dir : String
  port : Nat
  read_only : Bool
deriving DecidableEq, Repr

/-- `TftpConfig::default`. -/
def TftpConfig.defaultCfg (cwd : String) : TftpConfig :=
  ⟨cwd, 69, false⟩

/-- `SshConfig` from `src/servers/ssh.rs`. -/
structure SshConfig where
  root_dir : String
  port : Nat
  username : String
  password : String
deriving DecidableEq, Repr

/-- `SshConfig::default`. -/
def SshConfig.defaultCfg (cwd : String) : SshConfig :=
  ⟨cwd, 2222, "admin", "admin"⟩

/-- `ServerType` from `src/gui/app.rs`. -/
inductive ServerType where
  | Http
  | Ftp
  | Tftp
  | Ssh
deriving DecidableEq, Repr

/-- `ServerType::default_port` from `src/gui/app.rs`. -/
def ServerType.default_port : ServerType → Nat
  | .Http => 7777
  | .Ftp => 2121
  | .Tftp => 69
  | .Ssh => 2222

/-- A `tokio::sync::mpsc` bounded channel viewed through its queue: `cap` is
the bound given to `mpsc::channel`, `len` the number of queued messages
(the messages themselves are `()`). -/
structure Chan where
  cap : Nat
  len : Nat
deriving DecidableEq, Repr

/-- `mpsc::channel(cap)` creates an empty queue of capacity `cap`. -/
def mpsc_channel (cap : Nat) : Chan :=
  ⟨cap, 0⟩

/-- `Sender::try_send(())`: enqueue iff the queue is below capacity; the
boolean reports whether the message was accepted. -/
def Chan.try_send (c : Chan) : Chan × Bool :=
  if c.len < c.cap then ({ c with len := c.len + 1 }, true) else (c, false)

/-- `ServerEntry` from `src/gui/app.rs` (one slot of the supervisor): the
shared `ServerState` plus the optional shutdown sender held by the GUI. -/
structure ServerEntry where
  server_type : ServerType
  state : ServerState
  shutdown_tx : Option Chan
deriving DecidableEq, Repr

/-- `ServerEntry::new` from `src/gui/app.rs` (root dir defaults to the
current working directory `cwd`). -/
def ServerEntry.new (server_type : ServerType) (cwd : String) : ServerEntry :=
  { server_type := server_type
    state := ServerState.new ⟨cwd, server_type.default_port, none⟩
    shutdown_tx := none }

/-- `ServerEntry::status`. -/
def ServerEntry.status (e : ServerEntry) : ServerStatus :=
  e.state.status

/-- `ServerEntry::is_running` from `src/gui/app.rs` lines 79–81:
`matches!(self.status(), ServerStatus::Running)` — true for `Running` only,
false for `Starting`, `Stopping`, `Stopped` and `Error`. -/
def ServerEntry.is_running (e : ServerEntry) : Bool :=
  match e.status with
  | ServerStatus.Running => true
  | _ => false

/-- `OServersApp::start_server` from `src/gui/app.rs` lines 207–272,
restricted to one slot.  If `is_running()` the call returns at once (the
Rust function returns `()`; no error value is produced).  Otherwise it
creates `mpsc::channel(1)`, stores the sender in `shutdown_tx`, builds the
per-kind config from the UI text fields (presentation-level, no lifecycle
logic) and spawns exactly one runtime task.  The boolean reports whether a
task was spawned. -/
def start_server (e : ServerEntry) : ServerEntry × Bool :=
  if e.is_running then (e, false)
  else ({ e with shutdown_tx := some (mpsc_channel 1) }, true)

/-- `OServersApp::stop_server` from `src/gui/app.rs` lines 274–283: take the
shutdown sender if present and `try_send(())` on it, then unconditionally
set the slot status to `Stopping`.  The returned `Nat` counts the stop
signals successfully enqueued during the call. -/
def stop_server (e : ServerEntry) : ServerEntry × Nat :=
  match e.shutdown_tx with
  | some ch =>
      ({ e with
          shutdown_tx := none
          state := { e.state with status := ServerStatus.Stopping } },
        if (ch.try_send).2 then 1 else 0)
  | none =>
      ({ e with state := { e.state with status := ServerStatus.Stopping } }, 0)

/-- Outcome of one runtime task: `ok` for `Ok(())`, `err` for
`Err(ServerError::Other(msg))`, `panicked` for a panic inside the task
(warp's `bind_with_graceful_shutdown` panics on a bind failure). -/
inductive RunOutcome where
  | ok
  | err (msg : String)
  | panicked
deriving DecidableEq, Repr

/-- External events that decide the control flow of
`ftp::start_server` (`src/servers/ftp.rs`): the libunftp builder fails, the
`listen` call returns an error (e.g. bind failure), `listen` returns `Ok`,
or the shutdown signal wins the `tokio::select!`. -/
inductive FtpEnv where
  | buildErr (msg : String)
  | listenErr (msg : String)
  | listenOk
  | shutdown
deriving DecidableEq, Repr

/-- The `Running` block of `ftp::start_server` lines 108–123: set status to
`Running` and append the startup log lines. -/
def ftpRunningState (config : FtpConfig) (s : ServerState) : ServerState :=
  let s := { s with status := ServerStatus.Running }
  let s := s.add_log (LogMessage.info
    ("FTP server started on ftp://0.0.0.0:" ++ toString config.port))
  let s := s.add_log (LogMessage.info ("Root directory: " ++ config.root_dir))
  let s := if config.anonymous_access then
    s.add_log (LogMessage.info ("Anonymous access: enabled")) else s
  s.add_log (LogMessage.info
    ("Mode: " ++ (if config.passive_mode then ("Passive") else ("Active")) ++
      " (passive ports: " ++ toString config.passive_ports.1 ++ "-" ++
      toString config.passive_ports.2 ++ ")"))

/-- `ftp::start_server` from `src/servers/ftp.rs` lines 77–148.  Returns the
final shared state, the list of status values written to it (in write
order), and the run outcome.  Status writes per path: `Starting` always;
on a builder error the function returns with `?` (status stays `Starting`,
no `Error` write); otherwise `Running` is written *before* `listen` is
called; a `listen` error then writes `Error(e)`; `listen` returning `Ok`
or a shutdown signal writes `Stopped`. -/
def ftp_start_server (config : FtpConfig) (s0 : ServerState) (env : FtpEnv) :
    ServerState × List ServerStatus × RunOutcome :=
  let s1 := ({ s0 with status := ServerStatus.Starting }).add_log
    (LogMessage.info ("Starting FTP server on port " ++ toString config.port ++ "..."))
  match env with
  | FtpEnv.buildErr m => (s1, [ServerStatus.Starting], RunOutcome.err m)
  | FtpEnv.listenErr m =>
      let s2 := ftpRunningState config s1
      let s3 := ({ s2 with status := ServerStatus.Error m }).add_log
        (LogMessage.mkError ("FTP server error: " ++ m))
      (s3, [ServerStatus.Starting, ServerStatus.Running, ServerStatus.Error m],
        RunOutcome.err m)
  | FtpEnv.listenOk =>
      let s2 := ftpRunningState config s1
      let s3 := ({ s2 with status := ServerStatus.Stopped }).add_log
        (LogMessage.info ("FTP server stopped"))
      (s3, [ServerStatus.Starting, ServerStatus.Running, ServerStatus.Stopped],
        RunOutcome.ok)
  | FtpEnv.shutdown =>
      let s2 := ftpRunningState config s1
      let s3 := ({ s2 with status := ServerStatus.Stopped }).add_log
        (LogMessage.info ("FTP server stopped"))
      (s3, [ServerStatus.Starting, ServerStatus.Running, ServerStatus.Stopped],
        RunOutcome.ok)

/-- External events deciding `http::start_server`: the warp bind fails (the
server future panics when awaited), or the shutdown signal arrives and the
graceful shutdown completes.  Request serving and the auto-stop timer task
append further log entries concurrently; a run with no requests is
modelled. -/
inductive HttpEnv where
  | bindPanic
  | shutdown
deriving DecidableEq, Repr

/-- `http::start_server` from `src/servers/http.rs` lines 147–270.  Writes
`Starting` (with a log line), then `Running` together with the startup log
lines — *before* `bind_with_graceful_shutdown` is reached, so also on a run
whose bind later fails.  A bind failure panics inside `server.await`
(warp's non-`try` bind), so no further status is written; otherwise the
run ends at `Stopped` after the shutdown signal. -/
def http_start_server (config : HttpConfig) (s0 : ServerState) (env : HttpEnv) :
    ServerState × List ServerStatus × RunOutcome :=
  let s1 := ({ s0 with status := ServerStatus.Starting }).add_log
    (LogMessage.info ("Starting HTTP server on port " ++ toString config.port ++ "..."))
  let s2 := { s1 with status := ServerStatus.Running }
  let s2 := s2.add_log (LogMessage.info
    ("HTTP server started on http://0.0.0.0:" ++ toString config.port))
  let s2 := s2.add_log (LogMessage.info ("Serving files from: " ++ config.root_dir))
  let s2 := if config.allow_directory_listing then
    s2.add_log (LogMessage.info ("Directory listing: enabled")) else s2
  match env with
  | HttpEnv.bindPanic =>
      (s2, [ServerStatus.Starting, ServerStatus.Running], RunOutcome.panicked)
  | HttpEnv.shutdown =>
      let s3 := ({ s2 with status := ServerStatus.Stopped }).add_log
        (LogMessage.info ("HTTP server stopped"))
      (s3, [ServerStatus.Starting, ServerStatus.Running, ServerStatus.Stopped],
        RunOutcome.ok)

/-- The auto-stop timer task body from `src/servers/http.rs` lines 245–258
(spawned only when `auto_stop_seconds` is `Some`): after the sleep it takes
the write lock and, if the status is `Running`, appends one info log entry;
it touches nothing else and holds no sender for the shutdown channel.  The
returned `Nat` counts stop signals sent (structurally zero). -/
def http_auto_stop_tick (timeout_secs : Nat) (s : ServerState) : ServerState × Nat :=
  if s.status = ServerStatus.Running then
    (s.add_log (LogMessage.info
      ("Auto-stopping after " ++ toString timeout_secs ++ " seconds of inactivity")), 0)
  else (s, 0)

/-- External events deciding `tftp::start_server`: `with_dir_ro` fails,
`bind(addr).build()` fails, `serve` returns an error, `serve` returns `Ok`,
or the shutdown signal wins the `tokio::select!`. -/
inductive TftpEnv where
  | withDirErr (msg : String)
  | bindBuildErr (msg : String)
  | serveErr (msg : String)
  | serveOk
  | shutdown
deriving DecidableEq, Repr

/-- The `Running` block of `tftp::start_server` lines 61–78. -/
def tftpRunningState (config : TftpConfig) (s : ServerState) : ServerState :=
  let s := { s with status := ServerStatus.Running }
  let s := s.add_log (LogMessage.info
    ("TFTP server started on tftp://0.0.0.0:" ++ toString config.port))
  let s := s.add_log (LogMessage.info ("Root directory: " ++ config.root_dir))
  s.add_log (LogMessage.info
    ("Mode: " ++ (if config.read_only then ("read-only") else ("read-write"))))

/-- `tftp::start_server` from `src/servers/tftp.rs` lines 36–119.  Unlike
the HTTP and FTP runtimes, `Running` is written only after `bind(...)`
`.build()` has succeeded; both setup failures write `Error(e)` directly
from `Starting`. -/
def tftp_start_server (config : TftpConfig) (s0 : ServerState) (env : TftpEnv) :
    ServerState × List ServerStatus × RunOutcome :=
  let s1 := ({ s0 with status := ServerStatus.Starting }).add_log
    (LogMessage.info ("Starting TFTP server on port " ++ toString config.port ++ "..."))
  match env with
  | TftpEnv.withDirErr m =>
      let s2 := ({ s1 with status := ServerStatus.Error m }).add_log
        (LogMessage.mkError ("Failed to create TFTP server: " ++ m))
      (s2, [ServerStatus.Starting, ServerStatus.Error m], RunOutcome.err m)
  | TftpEnv.bindBuildErr m =>
      let s2 := ({ s1 with status := ServerStatus.Error m }).add_log
        (LogMessage.mkError ("Failed to build TFTP server: " ++ m))
      (s2, [ServerStatus.Starting, ServerStatus.Error m], RunOutcome.err m)
  | TftpEnv.serveErr m =>
      let s2 := tftpRunningState config s1
      let s3 := ({ s2 with status := ServerStatus.Error m }).add_log
        (LogMessage.mkError ("TFTP server error: " ++ m))
      (s3, [ServerStatus.Starting, ServerStatus.Running, ServerStatus.Error m],
        RunOutcome.err m)
  | TftpEnv.serveOk =>
      let s2 := tftpRunningState config s1
      let s3 := ({ s2 with status := ServerStatus.Stopped }).add_log
        (LogMessage.info ("TFTP server stopped"))
      (s3, [ServerStatus.Starting, ServerStatus.Running, ServerStatus.Stopped],
        RunOutcome.ok)
  | TftpEnv.shutdown =>
      let s2 := tftpRunningState config s1
      let s3 := ({ s2 with status := ServerStatus.Stopped }).add_log
        (LogMessage.info ("TFTP server stopped"))
      (s3, [ServerStatus.Starting, ServerStatus.Running, ServerStatus.Stopped],
        RunOutcome.ok)

/-- The log messages `ssh::start_server` appends, in order
(`src/servers/ssh.rs` lines 40–84): all info-level. -/
def ssh_log_msgs (config : SshConfig) : List LogMessage :=
  [LogMessage.info ("Starting SSH server on port " ++ toString config.port ++ "..."),
   LogMessage.info ("SSH server started on port " ++ toString config.port),
   LogMessage.info ("Root directory: " ++ config.root_dir),
   LogMessage.info ("Note: SSH server is in simplified mode"),
   LogMessage.info ("SSH server stopped")]

/-- `ssh::start_server` from `src/servers/ssh.rs` lines 40–84 (placeholder
runtime): writes `Starting` (one info log), immediately `Running` (three
info logs), binds no socket, then blocks solely on `shutdown_rx.recv()`;
once the signal arrives (or all senders drop) it writes `Stopped` (one info
log) and returns `Ok(())`.  No environment input exists: there is no
failure path. -/
def ssh_start_server (config : SshConfig) (s0 : ServerState) :
    ServerState × List ServerStatus × RunOutcome :=
  let s1 := ({ s0 with status := ServerStatus.Starting }).add_log
    (LogMessage.info ("Starting SSH server on port " ++ toString config.port ++ "..."))
  let s2 := { s1 with status := ServerStatus.Running }
  let s2 := s2.add_log (LogMessage.info
    ("SSH server started on port " ++ toString config.port))
  let s2 := s2.add_log (LogMessage.info ("Root directory: " ++ config.root_dir))
  let s2 := s2.add_log (LogMessage.info ("Note: SSH server is in simplified mode"))
  let s3 := ({ s2 with status := ServerStatus.Stopped }).add_log
    (LogMessage.info ("SSH server stopped"))
  (s3, [ServerStatus.Starting, ServerStatus.Running, ServerStatus.Stopped],
    RunOutcome.ok)

/-- `AppConfig` from `src/config.rs`. -/
structure AppConfig where
  http : HttpConfig
  ftp : FtpConfig
  tftp : TftpConfig
  ssh : SshConfig
deriving DecidableEq, Repr

/-- `AppConfig::default` (derived `Default`, i.e. all four per-kind
defaults; `cwd` is the process working directory used by them). -/
def AppConfig.defaultCfg (cwd : String) : AppConfig :=
  ⟨HttpConfig.defaultCfg cwd, FtpConfig.defaultCfg cwd,
   TftpConfig.defaultCfg cwd, SshConfig.defaultCfg cwd⟩

/-- What reading the persisted configuration file can yield: the file does
not exist, `read_to_string` fails, or it yields text. -/
inductive ConfigFile where
  | absent
  | unreadable (msg : String)
  | content (text : String)
deriving DecidableEq, Repr

/-- `AppConfig::load` from `src/config.rs` lines 18–34, over an abstract
read result and an abstract `serde_json::from_str` (`parse`): a missing
file, a read error, or a parse error each fall through (after a warning
log) to `Self::default()`; only a successful parse returns the parsed
configuration.  The function is total: no failure escapes. -/
def AppConfig.load (cwd : String) (parse : String → Except String AppConfig)
    (file : ConfigFile) : AppConfig :=
  match file with
  | ConfigFile.absent => AppConfig.defaultCfg cwd
  | ConfigFile.unreadable _ => AppConfig.defaultCfg cwd
  | ConfigFile.content text =>
      match parse text with
      | Except.ok config => config
      | Except.error _ => AppConfig.defaultCfg cwd

/-- A status-write trace allowed by the spec's state machine for one run:
a subsequence of `Starting → Running → Stopped` (the runtimes never write
`Stopping`; only the supervisor does), or such a subsequence truncated
before `Stopped` and terminated by one `Error(reason)` write. -/
def statusChainOk (t : List ServerStatus) : Prop :=
  t.Sublist [ServerStatus.Starting, ServerStatus.Running, ServerStatus.Stopped] ∨
  ∃ m pre, t = pre ++ [ServerStatus.Error m] ∧
    pre.Sublist [ServerStatus.Starting, ServerStatus.Running]

theorem chainFull_sub :
    List.Sublist [ServerStatus.Starting, ServerStatus.Running, ServerStatus.Stopped]
      [ServerStatus.Starting, ServerStatus.Running, ServerStatus.Stopped] :=
  List.Sublist.refl _

theorem chainStart_sub :
    List.Sublist [ServerStatus.Starting]
      [ServerStatus.Starting, ServerStatus.Running, ServerStatus.Stopped] := by
  decide

theorem chainSR_sub :
    List.Sublist [ServerStatus.Starting, ServerStatus.Running]
      [ServerStatus.Starting, ServerStatus.Running] :=
  List.Sublist.refl _

theorem chainS_sub :
    List.Sublist [ServerStatus.Starting]
      [ServerStatus.Starting, ServerStatus.Running] := by
  decide

theorem chainSRfull_sub :
    List.Sublist [ServerStatus.Starting, ServerStatus.Running]
      [ServerStatus.Starting, ServerStatus.Running, ServerStatus.Stopped] := by
  decide

-- Concrete fixtures used by counterexamples and witnesses.

/-- A concrete shared configuration. -/
def cfg0 : ServerConfig :=
  ⟨"/srv/files", 7777, none⟩

/-- A log entry left over from a previous run. -/
def oldMsg : LogMessage :=
  LogMessage.info ("previous run entry")

/-- A freshly initialised state (status `Stopped`, empty log). -/
def state0 : ServerState :=
  ⟨ServerStatus.Stopped, [], cfg0⟩

/-- A state whose run is currently `Running`. -/
def runningState : ServerState :=
  ⟨ServerStatus.Running, [], cfg0⟩

/-- A slot whose task has been spawned but is still `Starting`. -/
def entryStarting : ServerEntry :=
  ⟨ServerType.Http, ⟨ServerStatus.Starting, [], cfg0⟩, some (mpsc_channel 1)⟩

/-- A slot with an active `Running` run and a fresh shutdown channel. -/
def entryRunning : ServerEntry :=
  ⟨ServerType.Http, runningState, some (mpsc_channel 1)⟩

/-- An idle slot: `Stopped`, no shutdown channel. -/
def entryStopped : ServerEntry :=
  ⟨ServerType.Http, state0, none⟩

/-- A slot whose last run failed. -/
def entryFailed : ServerEntry :=
  ⟨ServerType.Ftp, ⟨ServerStatus.Error ("bind failed"), [], cfg0⟩, none⟩

/-- An idle slot whose buffer still holds an entry from a previous run. -/
def entryWithLog : ServerEntry :=
  ⟨ServerType.Http, ⟨ServerStatus.Stopped, [oldMsg], cfg0⟩, none⟩

/-- A concrete HTTP config. -/
def httpCfg0 : HttpConfig :=
  HttpConfig.defaultCfg ("/srv/files")

/-- A concrete FTP config. -/
def ftpCfg0 : FtpConfig :=
  FtpConfig.defaultCfg ("/srv/files")

/-- A concrete parse function that rejects every document, standing for
`serde_json::from_str` on a corrupt file. -/
def parse0 : String → Except String AppConfig :=
  fun _ => Except.error ("expected value")

-- C1 — at-most-one-active-run guard.

/-- C1 counterexample: on a slot whose status is `Starting`, `start_server`
does *not* fail — `is_running` matches only `Running`, so the guard passes,
the shutdown channel is replaced by a fresh one (orphaning the running
task's receiver) and a second task is spawned.  This refutes the claim
that start while `Starting` fails with `AlreadyRunning` and spawns no
second task. -/
theorem start_while_starting_spawns_second_task :
    entryStarting.state.status = ServerStatus.Starting ∧
    (start_server entryStarting).2 = true ∧
    (start_server entryStarting).1.shutdown_tx = some (mpsc_channel 1) := by
  decide

/-- C1 amended: `start_server`'s guard rejects exactly the `Running` status
(returning silently with no `AlreadyRunning` error and no state change);
when the status is `Starting` or `Stopping` the call proceeds — it installs
a fresh shutdown channel and spawns another task (the slot's `ServerState`
itself is untouched by the call). -/
theorem start_guard_rejects_only_running (e : ServerEntry) :
    (e.state.status = ServerStatus.Running → start_server e = (e, false)) ∧
    ((e.state.status = ServerStatus.Starting ∨ e.state.status = ServerStatus.Stopping) →
      (start_server e).2 = true ∧
      (start_server e).1.shutdown_tx = some (mpsc_channel 1) ∧
      (start_server e).1.state = e.state) := by
  constructor
  · intro h
    simp [start_server, ServerEntry.is_running, ServerEntry.status, h]
  · rintro (h | h) <;>
      simp [start_server, ServerEntry.is_running, ServerEntry.status, h]

/-- C1 witness: the guard applied to a concrete `Running` slot. -/
theorem start_guard_rejects_only_running_witness :
    entryRunning.state.status = ServerStatus.Running ∧
    start_server entryRunning = (entryRunning, false) :=
  ⟨rfl, (start_guard_rejects_only_running entryRunning).1 rfl⟩

-- C2 — status monotonicity.

/-- C2 counterexample: `stop_server` on a slot whose status is `Stopped`
writes `Stopping`, i.e. the status regresses from `Stopped` back to
`Stopping` — exactly the regression the claim rules out. -/
theorem stop_on_stopped_slot_regresses :
    entryStopped.state.status = ServerStatus.Stopped ∧
    (stop_server entryStopped).1.state.status = ServerStatus.Stopping := by
  decide

/-- C2 amended: the statuses written by any runtime task during one run do
follow the spec's chain — a subsequence of
`Starting → Running → Stopped`, or truncated by a terminal `Error(reason)`
(and FTP's builder failure stops the trace at `Starting`) — but
`stop_server` assigns `Stopping` unconditionally, so stop on an
already-`Stopped` or `Failed` slot regresses the status to `Stopping`. -/
theorem runtime_chain_but_stop_unconditional :
    (∀ (c : FtpConfig) (s : ServerState) (env : FtpEnv),
      statusChainOk (ftp_start_server c s env).2.1) ∧
    (∀ (c : HttpConfig) (s : ServerState) (env : HttpEnv),
      statusChainOk (http_start_server c s env).2.1) ∧
    (∀ (c : TftpConfig) (s : ServerState) (env : TftpEnv),
      statusChainOk (tftp_start_server c s env).2.1) ∧
    (∀ (c : SshConfig) (s : ServerState),
      statusChainOk (ssh_start_server c s).2.1) ∧
    (∀ e : ServerEntry, (stop_server e).1.state.status = ServerStatus.Stopping) := by
  refine ⟨?_, ?_, ?_, ?_, ?_⟩
  · intro c s env
    cases env with
    | buildErr m => exact Or.inl chainStart_sub
    | listenErr m =>
        exact Or.inr ⟨m, [ServerStatus.Starting, ServerStatus.Running], rfl, chainSR_sub⟩
    | listenOk => exact Or.inl chainFull_sub
    | shutdown => exact Or.inl chainFull_sub
  · intro c s env
    cases env with
    | bindPanic => exact Or.inl chainSRfull_sub
    | shutdown => exact Or.inl chainFull_sub
  · intro c s env
    cases env with
    | withDirErr m =>
        exact Or.inr ⟨m, [ServerStatus.Starting], rfl, chainS_sub⟩
    | bindBuildErr m =>
        exact Or.inr ⟨m, [ServerStatus.Starting], rfl, chainS_sub⟩
    | serveErr m =>
        exact Or.inr ⟨m, [ServerStatus.Starting, ServerStatus.Running], rfl, chainSR_sub⟩
    | serveOk => exact Or.inl chainFull_sub
    | shutdown => exact Or.inl chainFull_sub
  · intro c s
    exact Or.inl chainFull_sub
  · intro e
    cases h : e.shutdown_tx <;> simp [stop_server, h]

-- C3 — stop on an inactive slot.

/-- C3 counterexample: `stop_server` on a `Failed` slot neither fails with
`NotRunning` nor leaves the slot unchanged — it transitions the slot to
`Stopping`. -/
theorem stop_on_failed_slot_transitions :
    entryFailed.state.status = ServerStatus.Error ("bind failed") ∧
    (stop_server entryFailed).1.state.status = ServerStatus.Stopping ∧
    (stop_server entryFailed).1 ≠ entryFailed := by
  decide

/-- C3 amended: `stop_server` never fails and never produces `NotRunning`
(its Rust return type is `()`; the `ServerError::NotRunning` variant is
dead code): on a slot with no shutdown channel — the inactive case — it
sends no signal and unconditionally sets the status to `Stopping`. -/
theorem stop_on_inactive_sets_stopping (e : ServerEntry)
    (h : e.shutdown_tx = none) :
    stop_server e =
      ({ e with state := { e.state with status := ServerStatus.Stopping } }, 0) := by
  simp [stop_server, h]

/-- C3 witness: the amended behaviour at a concrete `Stopped` slot. -/
theorem stop_on_inactive_sets_stopping_witness :
    entryStopped.shutdown_tx = none ∧
    stop_server entryStopped =
      ({ entryStopped with
          state := { entryStopped.state with status := ServerStatus.Stopping } }, 0) :=
  ⟨rfl, stop_on_inactive_sets_stopping entryStopped rfl⟩

-- C4 — log-buffer capacity invariant.

/-- C4: starting from any buffer with at most 100 entries, a single
`add_log` keeps the length at most 100 and, at capacity, evicts exactly the
oldest entry; and any sequence of more than 100 appends leaves exactly the
most recent 100 appended entries, in append order. -/
theorem log_buffer_capacity (s : ServerState) (m : LogMessage)
    (ms : List LogMessage) (h : s.logs.length ≤ 100) :
    (s.add_log m).logs.length ≤ 100 ∧
    (s.logs.length = 100 → (s.add_log m).logs = s.logs.drop 1 ++ [m]) ∧
    (100 < ms.length →
      (s.addLogs ms).logs = ms.drop (ms.length - 100) ∧
      (s.addLogs ms).logs.length = 100) := by
  refine ⟨?_, ?_, ?_⟩
  · show (addLog s.logs m).length ≤ 100
    rw [addLog_length]
    split <;> omega
  · intro h100
    show addLog s.logs m = _
    exact addLog_of_full _ _ h100
  · intro hm
    have h1 : (s.addLogs ms).logs = ms.foldl addLog s.logs :=
      (ServerState.addLogs_logs s ms).1
    have h2 : ms.foldl addLog s.logs = lastN 100 (s.logs ++ ms) :=
      foldl_addLog_eq_lastN ms s.logs h
    have h3 : lastN 100 (s.logs ++ ms) = lastN 100 ms :=
      lastN_append_right 100 s.logs ms (by omega)
    refine ⟨?_, ?_⟩
    · rw [h1, h2, h3]; rfl
    · rw [h1, h2, h3]
      exact lastN_length_of_le 100 ms (by omega)

/-- C4 witness: the invariant applied to a concrete state and append. -/
theorem log_buffer_capacity_witness :
    state0.logs.length ≤ 100 ∧
    ((state0.add_log oldMsg).logs.length ≤ 100 ∧
     (state0.logs.length = 100 →
       (state0.add_log oldMsg).logs = state0.logs.drop 1 ++ [oldMsg]) ∧
     (100 < ([oldMsg] : List LogMessage).length →
       (state0.addLogs [oldMsg]).logs =
         [oldMsg].drop (([oldMsg] : List LogMessage).length - 100) ∧
       (state0.addLogs [oldMsg]).logs.length = 100)) :=
  ⟨by decide, log_buffer_capacity state0 oldMsg [oldMsg] (by decide)⟩

-- C5 — Running only after a successful bind.

/-- C5 counterexample: an FTP run whose `listen` fails (e.g. a bind
conflict) has already written `Running` — the status trace is
`Starting, Running, Error(reason)`, so the run was `Running` before it
failed, refuting the claim that a failing bind/setup never reaches
`Running`. -/
theorem ftp_listen_failure_after_running :
    (ftp_start_server ftpCfg0 state0 (FtpEnv.listenErr ("Address already in use"))).2.1 =
      [ServerStatus.Starting, ServerStatus.Running,
        ServerStatus.Error ("Address already in use")] ∧
    ServerStatus.Running ∈
      (ftp_start_server ftpCfg0 state0 (FtpEnv.listenErr ("Address already in use"))).2.1 ∧
    (ftp_start_server ftpCfg0 state0 (FtpEnv.listenErr ("Address already in use"))).1.status =
      ServerStatus.Error ("Address already in use") := by
  refine ⟨rfl, ?_, rfl⟩
  simp [ftp_start_server]

/-- C5 amended: only the TFTP runtime follows the contract — it writes
`Running` strictly after a successful bind/build and moves from `Starting`
straight to `Error(reason)` on a setup failure; the FTP runtime writes
`Running` before calling `listen`, so a listen/bind failure yields the
trace `Starting, Running, Error(reason)`; the HTTP runtime writes `Running`
before binding and a bind failure panics the task with no `Failed` write at
all. -/
theorem bind_failure_status_policy :
    (∀ (c : TftpConfig) (s : ServerState) (m : String),
      (tftp_start_server c s (TftpEnv.bindBuildErr m)).2.1 =
        [ServerStatus.Starting, ServerStatus.Error m] ∧
      (tftp_start_server c s (TftpEnv.withDirErr m)).2.1 =
        [ServerStatus.Starting, ServerStatus.Error m] ∧
      ServerStatus.Running ∉ (tftp_start_server c s (TftpEnv.bindBuildErr m)).2.1) ∧
    (∀ (c : FtpConfig) (s : ServerState) (m : String),
      (ftp_start_server c s (FtpEnv.listenErr m)).2.1 =
        [ServerStatus.Starting, ServerStatus.Running, ServerStatus.Error m]) ∧
    (∀ (c : HttpConfig) (s : ServerState),
      (http_start_server c s HttpEnv.bindPanic).2.1 =
        [ServerStatus.Starting, ServerStatus.Running] ∧
      (http_start_server c s HttpEnv.bindPanic).2.2 = RunOutcome.panicked) := by
  refine ⟨?_, ?_, ?_⟩
  · intro c s m
    refine ⟨rfl, rfl, ?_⟩
    simp [tftp_start_server]
  · intro c s m
    rfl
  · intro c s
    exact ⟨rfl, rfl⟩

-- C6 — log clearing on start.

/-- C6 counterexample: starting a slot whose buffer holds an entry from a
previous run does not clear it — the entry is still there after
`start_server`, and still at the head of the buffer after the new HTTP
run's own writes, refuting the claim that each run's log is
self-contained. -/
theorem start_keeps_previous_logs :
    entryWithLog.state.logs = [oldMsg] ∧
    (start_server entryWithLog).1.state.logs = [oldMsg] ∧
    ((http_start_server httpCfg0 entryWithLog.state HttpEnv.shutdown).1.logs).head? =
      some oldMsg := by
  decide

/-- C6 amended: `start_server` does not clear the slot's log buffer — it
leaves the whole `ServerState` (status, logs, config) untouched, only
installing a fresh shutdown channel — so a new run appends its entries
after whatever the buffer already holds, bounded only by the 100-entry
eviction policy. -/
theorem start_leaves_state_untouched (e : ServerEntry) :
    (start_server e).1.state = e.state := by
  by_cases h : e.is_running <;> simp [start_server, h]

-- C7 — idempotent stop signal.

/-- C7: two consecutive `stop_server` calls on one slot deliver the stop
signal at most once — the first call takes the sender (and succeeds in
enqueueing exactly one signal whenever a channel with free capacity is
present, as after a start), the second finds no channel, sends nothing and
leaves the slot exactly as the first call left it. -/
theorem stop_twice_sends_at_most_one_signal (e : ServerEntry) :
    (stop_server e).2 ≤ 1 ∧
    (stop_server (stop_server e).1).2 = 0 ∧
    (stop_server (stop_server e).1).1 = (stop_server e).1 ∧
    (∀ ch, e.shutdown_tx = some ch → ch.len < ch.cap → (stop_server e).2 = 1) := by
  refine ⟨?_, ?_, ?_, ?_⟩
  · cases h : e.shutdown_tx
    · simp [stop_server, h]
    · simp only [stop_server, h]
      split <;> omega
  · cases h : e.shutdown_tx <;> simp [stop_server, h]
  · cases h : e.shutdown_tx <;> simp [stop_server, h]
  · intro ch hch hlt
    simp [stop_server, hch, Chan.try_send, hlt]

/-- C7 witness: one active slot with a fresh capacity-1 channel — the first
stop delivers exactly one signal. -/
theorem stop_twice_sends_at_most_one_signal_witness :
    entryRunning.shutdown_tx = some (mpsc_channel 1) ∧
    (mpsc_channel 1).len < (mpsc_channel 1).cap ∧
    (stop_server entryRunning).2 = 1 :=
  ⟨rfl, by decide,
    (stop_twice_sends_at_most_one_signal entryRunning).2.2.2
      (mpsc_channel 1) rfl (by decide)⟩

-- C8 — configuration loading never fails.

/-- C8: `AppConfig::load` is total and never surfaces a failure: a missing
file, an unreadable file, or a file that fails to parse each yield the
default configuration, and only a successful parse yields the parsed
configuration. -/
theorem config_load_never_fails (cwd : String)
    (parse : String → Except String AppConfig) (file : ConfigFile) :
    (file = ConfigFile.absent →
      AppConfig.load cwd parse file = AppConfig.defaultCfg cwd) ∧
    (∀ m, file = ConfigFile.unreadable m →
      AppConfig.load cwd parse file = AppConfig.defaultCfg cwd) ∧
    (∀ t e, file = ConfigFile.content t → parse t = Except.error e →
      AppConfig.load cwd parse file = AppConfig.defaultCfg cwd) ∧
    (∀ t c, file = ConfigFile.content t → parse t = Except.ok c →
      AppConfig.load cwd parse file = c) := by
  refine ⟨?_, ?_, ?_, ?_⟩ <;> intros <;> subst_vars <;> simp [AppConfig.load, *]

/-- C8 witness: a corrupt document falls back to the defaults. -/
theorem config_load_never_fails_witness :
    parse0 ("not json") = Except.error ("expected value") ∧
    AppConfig.load ("/home/user") parse0 (ConfigFile.content ("not json")) =
      AppConfig.defaultCfg ("/home/user") :=
  ⟨rfl,
    (config_load_never_fails ("/home/user") parse0
        (ConfigFile.content ("not json"))).2.2.1
      ("not json") ("expected value") rfl rfl⟩

-- C9 — auto-stop expiry is advisory.

/-- C9: when the HTTP auto-stop countdown expires while the slot is
`Running`, the timer task only appends the one auto-stop info entry to the
log: the status stays `Running`, the config is untouched, and no stop
signal is sent (the task holds no sender), so the server keeps serving. -/
theorem auto_stop_expiry_only_logs (t : Nat) (s : ServerState)
    (h : s.status = ServerStatus.Running) :
    (http_auto_stop_tick t s).1.status = ServerStatus.Running ∧
    (http_auto_stop_tick t s).1.config = s.config ∧
    (http_auto_stop_tick t s).1.logs =
      addLog s.logs (LogMessage.info
        ("Auto-stopping after " ++ toString t ++ " seconds of inactivity")) ∧
    (http_auto_stop_tick t s).2 = 0 := by
  simp [http_auto_stop_tick, h, ServerState.add_log]

/-- C9 witness: the expiry at a concrete `Running` state. -/
theorem auto_stop_expiry_only_logs_witness :
    runningState.status = ServerStatus.Running ∧
    ((http_auto_stop_tick 360 runningState).1.status = ServerStatus.Running ∧
     (http_auto_stop_tick 360 runningState).1.config = runningState.config ∧
     (http_auto_stop_tick 360 runningState).1.logs =
       addLog runningState.logs (LogMessage.info
         ("Auto-stopping after " ++ toString 360 ++ " seconds of inactivity")) ∧
     (http_auto_stop_tick 360 runningState).2 = 0) :=
  ⟨rfl, auto_stop_expiry_only_logs 360 runningState rfl⟩

-- C10 — the SSH placeholder runtime.

/-- C10: for every `SshConfig` and initial state, the SSH runtime writes
exactly `Starting, Running, Stopped` (no `Error` status is ever written),
returns `Ok(())`, and appends exactly its five info-level log entries in
order; it has no failure path (it binds nothing). -/
theorem ssh_runtime_trace (c : SshConfig) (s : ServerState) :
    (ssh_start_server c s).2.1 =
      [ServerStatus.Starting, ServerStatus.Running, ServerStatus.Stopped] ∧
    (ssh_start_server c s).2.2 = RunOutcome.ok ∧
    (ssh_start_server c s).1.status = ServerStatus.Stopped ∧
    (∀ m, ServerStatus.Error m ∉ (ssh_start_server c s).2.1) ∧
    (ssh_start_server c s).1.logs = (ssh_log_msgs c).foldl addLog s.logs ∧
    (∀ msg ∈ ssh_log_msgs c, msg.level = LogLevel.Info) := by
  refine ⟨rfl, rfl, rfl, ?_, ?_, ?_⟩
  · intro m
    simp [ssh_start_server]
  · simp only [ssh_start_server, ssh_log_msgs, List.foldl, ServerState.add_log]
  · intro msg hm
    simp only [ssh_log_msgs, List.mem_cons, List.not_mem_nil, or_false] at hm
    rcases hm with rfl | rfl | rfl | rfl | rfl <;> rfl

end OServers
